import Mathlib

/-!
Verification of the interface-offset table of cs2-dumper and of its
interface-resolution subsystem.

The repository ships a single generated header, `src/output/interfaces.hpp`,
holding `constexpr std::ptrdiff_t` offsets grouped by module namespace.  That
table is embedded below verbatim (`repoModules`).  The resolution subsystem
(table loading/validation, module location, fingerprint validation and the
interface resolver) is specified but not shipped in the sources; those
operations are modelled from the spec, each marked `Modelled from the spec:`.
-/

set_option maxRecDepth 8000

namespace Cs2Dumper

/-- Interpretation of a 64-bit literal as a signed `std::ptrdiff_t`
(two's complement), as performed by the C++ initialisers in the header. -/
def toPtrdiff (n : Nat) : Int :=
  if n < 2 ^ 63 then (n : Int) else (n : Int) - 2 ^ 64

/-- One named interface within a module: module name, interface name and the
signed byte displacement from the module base. -/
structure InterfaceRecord where
  moduleName : String
  interfaceName : String
  offset : Int
  deriving DecidableEq

/-- Modelled from the spec: the records of one module inside the source
artifact, annotated with the build fingerprint the capture was taken against
(the generated header carries no fingerprint, so the embedded table uses an
empty one). -/
structure ModuleCapture where
  moduleName : String
  fingerprint : List Nat
  entries : List (String × Int)
  deriving DecidableEq

/-- Modelled from the spec: the external source artifact: a capture version
label plus the per-module captures. -/
structure SourceArtifact where
  version : String
  modules : List ModuleCapture
  deriving DecidableEq

/-- Modelled from the spec: the validated, immutable offset table produced by
a successful load. -/
structure OffsetTable where
  modules : List ModuleCapture
  deriving DecidableEq

/-- Modelled from the spec: a module as located in the target process: base
address, mapped size and the computed build fingerprint. -/
structure LoadedModule where
  baseAddress : Nat
  size : Nat
  fingerprint : List Nat
  deriving DecidableEq

/-- Modelled from the spec: result of a successful resolution. -/
structure ResolvedInterface where
  interfaceName : String
  address : Int
  resolvedAt : Nat
  deriving DecidableEq

/-- Modelled from the spec: the load-time error. -/
inductive LoadError where
  | MalformedTable
  deriving DecidableEq

/-- Modelled from the spec: the four runtime error kinds of the resolver. -/
inductive ResolveError where
  | UnknownInterface
  | ModuleNotLoaded
  | StaleOffsets
  | OffsetOutOfBounds
  deriving DecidableEq

instance instDecEqExceptLoad : DecidableEq (Except LoadError OffsetTable) :=
  fun a b =>
    match a, b with
    | .ok x, .ok y => decidable_of_iff (x = y) (by simp)
    | .error x, .error y => decidable_of_iff (x = y) (by simp)
    | .ok _, .error _ => isFalse (by simp)
    | .error _, .ok _ => isFalse (by simp)

instance instDecEqExceptResolve : DecidableEq (Except ResolveError ResolvedInterface) :=
  fun a b =>
    match a, b with
    | .ok x, .ok y => decidable_of_iff (x = y) (by simp)
    | .error x, .error y => decidable_of_iff (x = y) (by simp)
    | .ok _, .error _ => isFalse (by simp)
    | .error _, .ok _ => isFalse (by simp)

/-- All `(moduleName, interfaceName)` keys of a capture list, in order. -/
def keysOf (mods : List ModuleCapture) : List (String × String) :=
  mods.flatMap fun c => c.entries.map fun e => (c.moduleName, e.1)

/-- All interface records of a capture list, flattened, in order. -/
def recordsOf (mods : List ModuleCapture) : List InterfaceRecord :=
  mods.flatMap fun c => c.entries.map fun e => ⟨c.moduleName, e.1, e.2⟩

/-- Modelled from the spec: the structural invariants checked at load time:
non-empty module and interface names, non-negative offsets, unique module
names and unique `(module, interface)` keys. -/
def wellFormed (a : SourceArtifact) : Prop :=
  (∀ c ∈ a.modules, c.moduleName ≠ "" ∧ ∀ e ∈ c.entries, e.1 ≠ "" ∧ 0 ≤ e.2) ∧
  (a.modules.map (·.moduleName)).Nodup ∧
  (keysOf a.modules).Nodup

instance instDecidableWellFormed (a : SourceArtifact) : Decidable (wellFormed a) := by
  unfold wellFormed
  infer_instance

/-- Modelled from the spec: `load(source) -> OffsetTable | Error(MalformedTable)`;
the structural invariants are validated at load time and a violation is a
`MalformedTable` error, never a silent repair or overwrite. -/
def load (a : SourceArtifact) : Except LoadError OffsetTable :=
  if wellFormed a then .ok ⟨a.modules⟩ else .error .MalformedTable

/-- Two-level search for the capture and offset behind a key. -/
def OffsetTable.lookupEntry (t : OffsetTable) (m i : String) :
    Option (ModuleCapture × Int) :=
  match t.modules.find? (fun c => c.moduleName == m) with
  | none => none
  | some c =>
    match c.entries.find? (fun e => e.1 == i) with
    | none => none
    | some e => some (c, e.2)

/-- Modelled from the spec: `lookup(moduleName, interfaceName) -> Optional<offset>`,
the only query operation, via the two-level map. -/
def OffsetTable.lookup (t : OffsetTable) (m i : String) : Option Int :=
  (t.lookupEntry m i).map (·.2)

/-- Modelled from the spec: `OffsetValidator.validate(ModuleEntry, capturedFingerprint)`;
exact fingerprint equality is required, any mismatch is `StaleOffsets`. -/
def validate (md : LoadedModule) (captured : List Nat) : Except ResolveError Unit :=
  if md.fingerprint = captured then .ok () else .error .StaleOffsets

/-- Modelled from the spec: `InterfaceResolver.resolve(moduleName, interfaceName)`:
table lookup (absent: `UnknownInterface`), module location (absent:
`ModuleNotLoaded`), fingerprint validation (`StaleOffsets`), address
computation and the bounds check `0 <= offset < module.size`
(`OffsetOutOfBounds`).  The module locator is passed as the point-in-time
module state `locate`; `now` is the logical timestamp recorded in the
result. -/
def resolve (t : OffsetTable) (locate : String → Option LoadedModule) (now : Nat)
    (m i : String) : Except ResolveError ResolvedInterface :=
  match t.lookupEntry m i with
  | none => .error .UnknownInterface
  | some (c, off) =>
    match locate m with
    | none => .error .ModuleNotLoaded
    | some md =>
      match validate md c.fingerprint with
      | .error e => .error e
      | .ok () =>
        if 0 ≤ off ∧ off < (md.size : Int) then
          .ok ⟨i, (md.baseAddress : Int) + off, now⟩
        else
          .error .OffsetOutOfBounds

/-- The observable outcome of a resolution: the interface name and address on
success, the error kind on failure; the logical timestamp is not part of it. -/
def outcome (r : Except ResolveError ResolvedInterface) :
    Except ResolveError (String × Int) :=
  match r with
  | .ok v => .ok (v.interfaceName, v.address)
  | .error e => .error e

/-- A key `(m, i)` is recorded with offset `off` in the artifact. -/
def Recorded (a : SourceArtifact) (m i : String) (off : Int) : Prop :=
  ∃ c ∈ a.modules, c.moduleName = m ∧ (i, off) ∈ c.entries

instance instDecidableRecorded (a : SourceArtifact) (m i : String) (off : Int) :
    Decidable (Recorded a m i off) := by
  unfold Recorded
  infer_instance

/-- Builds a capture from raw 64-bit literals, interpreting each as a
`std::ptrdiff_t`; the generated header carries no fingerprint. -/
def mkCap (name : String) (raw : List (String × Nat)) : ModuleCapture :=
  ⟨name, [], raw.map fun e => (e.1, toPtrdiff e.2)⟩

/-- The `client.dll` namespace of the generated header. -/
def clientCapture : ModuleCapture :=
  mkCap "client.dll"
    [ ("ClientToolsInfo_001", 0x1BEB120)
    , ("EmptyWorldService001_Client", 0x1BA6230)
    , ("GameClientExports001", 0x1BE7F10)
    , ("LegacyGameUI001", 0x1C066A0)
    , ("Source2Client002", 0x1E2D410)
    , ("Source2ClientConfig001", 0x1DC8B70)
    , ("Source2ClientPrediction001", 0x1BF23C0)
    , ("Source2ClientUI001", 0x1C04B90) ]

/-- The `soundsystem.dll` namespace of the generated header. -/
def soundsystemCapture : ModuleCapture :=
  mkCap "soundsystem.dll"
    [ ("SoundOpSystem001", 0x3DF150)
    , ("SoundOpSystemEdit001", 0x3DF040)
    , ("SoundSystem001", 0x3DEB70)
    , ("VMixEditTool001", 0x485EE79B) ]

/-- The full generated artifact `src/output/interfaces.hpp`, module namespaces
and constants transcribed in order. -/
def repoModules : List ModuleCapture :=
  [ mkCap "animationsystem.dll"
      [ ("AnimationSystemUtils_001", 0x7188F0)
      , ("AnimationSystem_001", 0x710810) ]
  , clientCapture
  , mkCap "engine2.dll"
      [ ("BenchmarkService001", 0x5E8220)
      , ("BugService001", 0x896950)
      , ("ClientServerEngineLoopService_001", 0x8D8030)
      , ("EngineGameUI001", 0x5E5FB0)
      , ("EngineServiceMgr001", 0x8D7970)
      , ("GameEventSystemClientV001", 0x8D7C40)
      , ("GameEventSystemServerV001", 0x8D7D60)
      , ("GameResourceServiceClientV001", 0x5E8320)
      , ("GameResourceServiceServerV001", 0x5E8380)
      , ("GameUIService_001", 0x896D80)
      , ("HostStateMgr001", 0x5E8BC0)
      , ("INETSUPPORT_001", 0x5E15C0)
      , ("InputService_001", 0x897070)
      , ("KeyValueCache001", 0x5E8C70)
      , ("MapListService_001", 0x8D5FF0)
      , ("NetworkClientService_001", 0x8D6180)
      , ("NetworkP2PService_001", 0x8D64A0)
      , ("NetworkServerService_001", 0x8D6630)
      , ("NetworkService_001", 0x5E84F0)
      , ("RenderService_001", 0x8D6890)
      , ("ScreenshotService001", 0x8D6B40)
      , ("SimpleEngineLoopService_001", 0x5E8CD0)
      , ("SoundService_001", 0x5E8530)
      , ("Source2EngineToClient001", 0x5E56E0)
      , ("Source2EngineToClientStringTable001", 0x5E5740)
      , ("Source2EngineToServer001", 0x5E57B8)
      , ("Source2EngineToServerStringTable001", 0x5E57E0)
      , ("SplitScreenService_001", 0x5E8830)
      , ("StatsService_001", 0x8D6F40)
      , ("ToolService_001", 0x5E89F0)
      , ("VENGINE_GAMEUIFUNCS_VERSION005", 0x5E6040)
      , ("VProfService_001", 0x5E8A30) ]
  , mkCap "filesystem_stdio.dll"
      [ ("VAsyncFileSystem2_001", 0x21CB50)
      , ("VFileSystem017", 0x21C7F0) ]
  , mkCap "host.dll"
      [ ("DebugDrawQueueManager001", 0x138E30)
      , ("GameModelInfo001", 0x138E70)
      , ("GameSystem2HostHook", 0x138EB0)
      , ("HostUtils001", 0x138EE0)
      , ("PredictionDiffManager001", 0x1390D0)
      , ("SaveRestoreDataVersion001", 0x139200)
      , ("SinglePlayerSharedMemory001", 0x139230)
      , ("Source2Host001", 0x1392A0) ]
  , mkCap "imemanager.dll"
      [ ("IMEManager001", 0x36AA0) ]
  , mkCap "inputsystem.dll"
      [ ("InputStackSystemVersion001", 0x43CD0)
      , ("InputSystemVersion001", 0x45A20) ]
  , mkCap "localize.dll"
      [ ("Localize_001", 0x47BD0) ]
  , mkCap "matchmaking.dll"
      [ ("GameTypes001", 0x1B5EE0)
      , ("MATCHFRAMEWORK_001", 0x1BE0F0) ]
  , mkCap "materialsystem2.dll"
      [ ("FontManager_001", 0x144500)
      , ("MaterialUtils_001", 0x139280)
      , ("PostProcessingSystem_001", 0x139190)
      , ("TextLayout_001", 0x139210)
      , ("VMaterialSystem2_001", 0x143B70) ]
  , mkCap "meshsystem.dll"
      [ ("MeshSystem001", 0x1CA550) ]
  , mkCap "navsystem.dll"
      [ ("NavSystem001", 0x1266D0) ]
  , mkCap "networksystem.dll"
      [ ("FlattenedSerializersVersion001", 0x25F210)
      , ("NetworkMessagesVersion001", 0x2972C0)
      , ("NetworkSystemVersion001", 0x288B20)
      , ("SerializedEntitiesVersion001", 0x288C30) ]
  , mkCap "panorama.dll"
      [ ("PanoramaUIEngine001", 0x508AD0) ]
  , mkCap "panorama_text_pango.dll"
      [ ("PanoramaTextServices001", 0x2B79C0) ]
  , mkCap "panoramauiclient.dll"
      [ ("PanoramaUIClient001", 0x290280) ]
  , mkCap "particles.dll"
      [ ("ParticleSystemMgr003", 0x59E050) ]
  , mkCap "pulse_system.dll"
      [ ("IPulseSystem_001", 0x1F7A00) ]
  , mkCap "rendersystemdx11.dll"
      [ ("RenderDeviceMgr001", 0x42C4F0)
      , ("RenderUtils_001", 0x42CDE8)
      , ("VRenderDeviceMgrBackdoor001", 0x42C590) ]
  , mkCap "resourcesystem.dll"
      [ ("ResourceSystem013", 0x7DB60) ]
  , mkCap "scenefilecache.dll"
      [ ("ResponseRulesCache001", 0x7A190)
      , ("SceneFileCache002", 0x7A2E0) ]
  , mkCap "scenesystem.dll"
      [ ("RenderingPipelines_001", 0x61E9C0)
      , ("SceneSystem_002", 0x841820)
      , ("SceneUtils_001", 0x61F1F0) ]
  , mkCap "schemasystem.dll"
      [ ("SchemaSystem_001", 0x79700) ]
  , mkCap "server.dll"
      [ ("EmptyWorldService001_Server", 0x1708110)
      , ("EntitySubclassUtilsV001", 0x16B0F90)
      , ("NavGameTest001", 0x17B0C50)
      , ("ServerToolsInfo_001", 0x1760F18)
      , ("Source2GameClients001", 0x175C8D0)
      , ("Source2GameDirector001", 0x18BA0D0)
      , ("Source2GameEntities001", 0x1760620)
      , ("Source2Server001", 0x1760490)
      , ("Source2ServerConfig001", 0x198D6C8)
      , ("customnavsystem001", 0x1690908) ]
  , soundsystemCapture
  , mkCap "steamaudio.dll"
      [ ("SteamAudio001", 0x251270) ]
  , mkCap "steamclient64.dll"
      [ ("CLIENTENGINE_INTERFACE_VERSION005", 0xFFFFFFFF8BB1AE0A)
      , ("IVALIDATE001", 0x1549E28)
      , ("SteamClient006", 0x15474F0)
      , ("SteamClient007", 0x15474F8)
      , ("SteamClient008", 0x1547500)
      , ("SteamClient009", 0x1547508)
      , ("SteamClient010", 0x1547510)
      , ("SteamClient011", 0x1547518)
      , ("SteamClient012", 0x1547520)
      , ("SteamClient013", 0x1547528)
      , ("SteamClient014", 0x1547530)
      , ("SteamClient015", 0x1547538)
      , ("SteamClient016", 0x1547540)
      , ("SteamClient017", 0x1547548)
      , ("SteamClient018", 0x1547550)
      , ("SteamClient019", 0x1547558)
      , ("SteamClient020", 0x1547560)
      , ("SteamClient021", 0x1547568)
      , ("SteamClient022", 0x1547570)
      , ("p2pvoice002", 0x14E2FDF)
      , ("p2pvoicesingleton002", 0x15240F0) ]
  , mkCap "tier0.dll"
      [ ("TestScriptMgr001", 0x38E690)
      , ("VEngineCvar007", 0x399480)
      , ("VProcessUtils002", 0x38E520)
      , ("VStringTokenSystem001", 0x3C0240) ]
  , mkCap "v8system.dll"
      [ ("Source2V8System001", 0x315B0) ]
  , mkCap "vphysics2.dll"
      [ ("VPhysics2_Handle_Interface_001", 0x3DD000)
      , ("VPhysics2_Interface_001", 0x3DD040) ]
  , mkCap "vscript.dll"
      [ ("VScriptManager010", 0x13C280) ]
  , mkCap "vstdlib_s64.dll"
      [ ("IVALIDATE001", 0x6E990)
      , ("VEngineCvar002", 0x6D070) ]
  , mkCap "worldrenderer.dll"
      [ ("WorldRendererMgr001", 0x1F0FA0) ]
  ]

/-- The generated header as a source artifact, with its generation timestamp
as the version label. -/
def repoArtifact : SourceArtifact :=
  ⟨"2025-09-11 07:42:49.512547700 UTC", repoModules⟩

/-- The generated table viewed directly as an offset table (constructed, not
loaded: `load` rejects the artifact, see the C2 theorem). -/
def repoTable : OffsetTable :=
  ⟨repoModules⟩

/-- A well-formed single-module artifact holding the `client.dll` records of
the generated header. -/
def clientArtifact : SourceArtifact :=
  ⟨"2025-09-11 07:42:49.512547700 UTC", [clientCapture]⟩

/-- The table obtained by loading `clientArtifact`. -/
def clientTable : OffsetTable :=
  ⟨[clientCapture]⟩

/-- A module state in which `client.dll` is loaded at base `0x7FF600000000`
with mapped size `0x2000000` and a fingerprint matching the table. -/
def clientLocate : String → Option LoadedModule := fun n =>
  if n = "client.dll" then some ⟨0x7FF600000000, 0x2000000, []⟩ else none

/-- A well-formed single-module artifact holding the `soundsystem.dll`
records of the generated header. -/
def soundArtifact : SourceArtifact :=
  ⟨"2025-09-11 07:42:49.512547700 UTC", [soundsystemCapture]⟩

/-- The table obtained by loading `soundArtifact`. -/
def soundTable : OffsetTable :=
  ⟨[soundsystemCapture]⟩

/-- A module state in which `soundsystem.dll` is loaded with a matching
fingerprint but a mapped size smaller than the `VMixEditTool001` offset. -/
def soundLocate : String → Option LoadedModule := fun n =>
  if n = "soundsystem.dll" then some ⟨0x7FF580000000, 0x400000, []⟩ else none

/-- The keys of the flattened record list are exactly `keysOf`. -/
theorem keysOf_eq_map (mods : List ModuleCapture) :
    keysOf mods = (recordsOf mods).map fun r => (r.moduleName, r.interfaceName) := by
  simp only [keysOf, recordsOf, List.map_flatMap, List.map_map]
  rfl

/-- A key is recorded in an artifact exactly when the corresponding record is
in the flattened record list. -/
theorem recorded_iff_mem (a : SourceArtifact) (m i : String) (off : Int) :
    Recorded a m i off ↔ (⟨m, i, off⟩ : InterfaceRecord) ∈ recordsOf a.modules := by
  unfold Recorded recordsOf
  simp only [List.mem_flatMap, List.mem_map]
  constructor
  · rintro ⟨c, hc, hname, hmem⟩
    exact ⟨c, hc, (i, off), hmem, by simp [hname]⟩
  · rintro ⟨c, hc, e, he, heq⟩
    injection heq with h1 h2 h3
    subst h1; subst h2; subst h3
    exact ⟨c, hc, rfl, he⟩

/-- Under unique keys, a key determines its offset. -/
theorem recorded_unique {a : SourceArtifact} (hk : (keysOf a.modules).Nodup)
    {m i : String} {o1 o2 : Int}
    (h1 : Recorded a m i o1) (h2 : Recorded a m i o2) : o1 = o2 := by
  rw [recorded_iff_mem] at h1 h2
  rw [keysOf_eq_map] at hk
  have := List.inj_on_of_nodup_map hk h1 h2 rfl
  injection this

/-- Under unique keys, each module's interface names are themselves unique. -/
theorem entryKeys_nodup {mods : List ModuleCapture} (hk : (keysOf mods).Nodup)
    {c : ModuleCapture} (hc : c ∈ mods) : (c.entries.map fun e => e.1).Nodup := by
  have hsub : List.Sublist (c.entries.map fun e => (c.moduleName, e.1)) (keysOf mods) := by
    unfold keysOf
    rw [List.flatMap_def]
    exact List.sublist_flatten_of_mem
      (List.mem_map_of_mem (fun c => c.entries.map fun e => (c.moduleName, e.1)) hc)
  have h2 := hk.sublist hsub
  have h3 : (c.entries.map fun e => (c.moduleName, e.1)) =
      (c.entries.map fun e => e.1).map fun x => (c.moduleName, x) := by
    simp [List.map_map, Function.comp]
  rw [h3] at h2
  exact h2.of_map _

/-- A successful two-level search yields a capture of the table whose name is
the queried module name and an entry of that capture. -/
theorem lookupEntry_some {t : OffsetTable} {m i : String} {c : ModuleCapture}
    {off : Int} (h : t.lookupEntry m i = some (c, off)) :
    c ∈ t.modules ∧ c.moduleName = m ∧ (i, off) ∈ c.entries := by
  unfold OffsetTable.lookupEntry at h
  split at h
  · exact absurd h (by simp)
  next c' hfind =>
    split at h
    · exact absurd h (by simp)
    next e hefind =>
      have h' : c' = c ∧ e.2 = off := by
        injection h with h''
        exact ⟨congrArg Prod.fst h'', congrArg Prod.snd h''⟩
      obtain ⟨rfl, rfl⟩ := h'
      have hmem := List.mem_of_find?_eq_some hfind
      have hname : c'.moduleName = m := by simpa using List.find?_some hfind
      have hemem := List.mem_of_find?_eq_some hefind
      have hei : e.1 = i := by simpa using List.find?_some hefind
      refine ⟨hmem, hname, ?_⟩
      rw [← hei]
      exact hemem

/-- Under the load-time invariants, the two-level search finds exactly the
recorded entry. -/
theorem lookupEntry_eq_of_recorded {t : OffsetTable}
    (hn : (t.modules.map fun c => c.moduleName).Nodup)
    (hk : (keysOf t.modules).Nodup)
    {c : ModuleCapture} {i : String} {off : Int}
    (hc : c ∈ t.modules) (he : (i, off) ∈ c.entries) :
    t.lookupEntry c.moduleName i = some (c, off) := by
  have hsome : (t.modules.find? fun d => d.moduleName == c.moduleName).isSome := by
    rw [List.find?_isSome]
    exact ⟨c, hc, by simp⟩
  obtain ⟨c', hfind⟩ := Option.isSome_iff_exists.mp hsome
  have hc'mem := List.mem_of_find?_eq_some hfind
  have hc'name : c'.moduleName = c.moduleName := by simpa using List.find?_some hfind
  have hcc : c' = c := List.inj_on_of_nodup_map hn hc'mem hc hc'name
  subst hcc
  have hesome : (c'.entries.find? fun e => e.1 == i).isSome := by
    rw [List.find?_isSome]
    exact ⟨(i, off), he, by simp⟩
  obtain ⟨e, hefind⟩ := Option.isSome_iff_exists.mp hesome
  have hemem := List.mem_of_find?_eq_some hefind
  have hei : e.1 = i := by simpa using List.find?_some hefind
  have hee : e = (i, off) :=
    List.inj_on_of_nodup_map (entryKeys_nodup hk hc'mem) hemem he hei
  subst hee
  simp [OffsetTable.lookupEntry, hfind, hefind]

/-- A successful load validates the artifact and returns its modules
unchanged. -/
theorem load_ok {a : SourceArtifact} {t : OffsetTable} (h : load a = .ok t) :
    wellFormed a ∧ t = ⟨a.modules⟩ := by
  by_cases hwf : wellFormed a
  · refine ⟨hwf, ?_⟩
    rw [load, if_pos hwf] at h
    injection h with h'
    exact h'.symm
  · rw [load, if_neg hwf] at h
    exact absurd h (by simp)

/-- C1: for every table obtained by a successful load of a source artifact,
and for every `(module, interface)` key present in that artifact,
`lookup(moduleName, interfaceName)` returns exactly the offset recorded in
the artifact for that key, and returns the empty Optional for every key not
present in the artifact. -/
theorem c1_lookup_after_load (a : SourceArtifact) (t : OffsetTable)
    (h : load a = .ok t) (m i : String) (off : Int) :
    (t.lookup m i = some off ↔ Recorded a m i off) ∧
    (t.lookup m i = none ↔ ∀ o : Int, ¬ Recorded a m i o) := by
  obtain ⟨⟨hrec, hnames, hkeys⟩, hta⟩ := load_ok h
  subst hta
  have hiff : ∀ o : Int,
      (OffsetTable.mk a.modules).lookup m i = some o ↔ Recorded a m i o := by
    intro o
    constructor
    · intro hl
      obtain ⟨⟨c, o'⟩, hle, ho⟩ := Option.map_eq_some'.mp hl
      obtain ⟨hcm, hcn, hce⟩ := lookupEntry_some hle
      have ho' : o' = o := ho
      subst ho'
      exact ⟨c, hcm, hcn, hce⟩
    · rintro ⟨c, hc, rfl, he⟩
      have := @lookupEntry_eq_of_recorded ⟨a.modules⟩ hnames hkeys c i o hc he
      simp [OffsetTable.lookup, this]
  refine ⟨hiff off, ?_, ?_⟩
  · intro hnone o hr
    have := (hiff o).mpr hr
    rw [hnone] at this
    exact absurd this (by simp)
  · intro hall
    cases hl : (OffsetTable.mk a.modules).lookup m i with
    | none => rfl
    | some o => exact absurd ((hiff o).mp hl) (hall o)

/-- Witness for C1: the `client.dll` artifact loads and its lookup agrees
with the recorded `Source2Client002` offset. -/
theorem c1_witness :
    (clientTable.lookup "client.dll" "Source2Client002" = some 0x1E2D410 ↔
      Recorded clientArtifact "client.dll" "Source2Client002" 0x1E2D410) ∧
    (clientTable.lookup "client.dll" "Source2Client002" = none ↔
      ∀ o : Int, ¬ Recorded clientArtifact "client.dll" "Source2Client002" o) :=
  c1_lookup_after_load clientArtifact clientTable (by decide)
    "client.dll" "Source2Client002" 0x1E2D410

/-- C2: every record of a table accepted by `load` has a non-negative
offset, and loading the generated artifact, whose
`steamclient64.dll::CLIENTENGINE_INTERFACE_VERSION005` entry holds the
negative `ptrdiff_t` value `0xFFFFFFFF8BB1AE0A`, fails with
`MalformedTable`. -/
theorem c2_nonneg_offsets (a : SourceArtifact) (t : OffsetTable)
    (r : InterfaceRecord) (h : load a = .ok t) (hr : r ∈ recordsOf t.modules) :
    0 ≤ r.offset ∧ load repoArtifact = .error .MalformedTable := by
  refine ⟨?_, by decide⟩
  obtain ⟨⟨hrec, hnames, hkeys⟩, hta⟩ := load_ok h
  subst hta
  unfold recordsOf at hr
  simp only [List.mem_flatMap, List.mem_map] at hr
  obtain ⟨c, hc, e, he, heq⟩ := hr
  have := ((hrec c hc).2 e he).2
  rw [← heq]
  exact this

/-- Witness for C2: the loaded `client.dll` table contains the
`Source2Client002` record, whose offset is non-negative. -/
theorem c2_witness :
    0 ≤ (InterfaceRecord.mk "client.dll" "Source2Client002" 0x1E2D410).offset ∧
    load repoArtifact = .error .MalformedTable :=
  c2_nonneg_offsets clientArtifact clientTable
    ⟨"client.dll", "Source2Client002", 0x1E2D410⟩ (by decide) (by decide)

/-- C3: an artifact recording the same `(module, interface)` key twice with
differing offsets is rejected by `load` with `MalformedTable`, regardless of
the order of the two duplicates (the statement is symmetric in the two
offsets and independent of their positions), and is never silently
overwritten. -/
theorem c3_duplicate_keys_rejected (a : SourceArtifact) (m i : String)
    (o1 o2 : Int) (hne : o1 ≠ o2)
    (h1 : Recorded a m i o1) (h2 : Recorded a m i o2) :
    load a = .error .MalformedTable := by
  have hnwf : ¬ wellFormed a := fun hwf => hne (recorded_unique hwf.2.2 h1 h2)
  rw [load, if_neg hnwf]

/-- Witness for C3: a two-record artifact with a duplicated key and two
different offsets fails to load. -/
theorem c3_witness :
    load ⟨"dup", [⟨"m.dll", [], [("Iface001", 0x10), ("Iface001", 0x20)]⟩]⟩ =
      .error .MalformedTable :=
  c3_duplicate_keys_rejected
    ⟨"dup", [⟨"m.dll", [], [("Iface001", 0x10), ("Iface001", 0x20)]⟩]⟩
    "m.dll" "Iface001" 0x10 0x20 (by decide) (by decide) (by decide)

/-- C4: when the fingerprint recorded in the table for a module differs in
any way from the located module's current fingerprint, `resolve` fails with
`StaleOffsets` for every interface of that module and never returns an
address; `validate` is exact equality, with no partial matching. -/
theorem c4_stale_offsets (t : OffsetTable) (locate : String → Option LoadedModule)
    (now : Nat) (m i : String) (c : ModuleCapture) (off : Int) (md : LoadedModule)
    (hl : t.lookupEntry m i = some (c, off)) (hloc : locate m = some md)
    (hfp : md.fingerprint ≠ c.fingerprint) :
    resolve t locate now m i = .error .StaleOffsets := by
  simp [resolve, hl, hloc, validate, hfp]

/-- Witness for C4: a module state whose `client.dll` fingerprint differs
from the table's makes resolution of `Source2Client002` fail stale. -/
theorem c4_witness :
    resolve clientTable
      (fun n => if n = "client.dll" then some ⟨0x7FF600000000, 0x2000000, [1]⟩ else none)
      0 "client.dll" "Source2Client002" = .error .StaleOffsets :=
  c4_stale_offsets clientTable
    (fun n => if n = "client.dll" then some ⟨0x7FF600000000, 0x2000000, [1]⟩ else none)
    0 "client.dll" "Source2Client002" clientCapture 0x1E2D410
    ⟨0x7FF600000000, 0x2000000, [1]⟩ (by decide) (by decide) (by decide)

/-- C5: when the table offset is negative or at least the located module's
mapped size, `resolve` fails with `OffsetOutOfBounds`, even when the module
is loaded and its fingerprint matches the table. -/
theorem c5_offset_bounds (t : OffsetTable) (locate : String → Option LoadedModule)
    (now : Nat) (m i : String) (c : ModuleCapture) (off : Int) (md : LoadedModule)
    (hl : t.lookupEntry m i = some (c, off)) (hloc : locate m = some md)
    (hfp : md.fingerprint = c.fingerprint)
    (hb : off < 0 ∨ (md.size : Int) ≤ off) :
    resolve t locate now m i = .error .OffsetOutOfBounds := by
  have hnb : ¬ (0 ≤ off ∧ off < (md.size : Int)) := by
    rcases hb with h | h
    · rintro ⟨h1, _⟩
      omega
    · rintro ⟨_, h2⟩
      omega
  simp [resolve, hl, hloc, validate, hfp, hnb]

/-- Witness for C5: the generated `soundsystem.dll::VMixEditTool001` offset
`0x485EE79B` exceeds a realistic mapped size, so resolution fails out of
bounds despite a matching fingerprint. -/
theorem c5_witness :
    resolve soundTable soundLocate 0 "soundsystem.dll" "VMixEditTool001" =
      .error .OffsetOutOfBounds :=
  c5_offset_bounds soundTable soundLocate 0 "soundsystem.dll" "VMixEditTool001"
    soundsystemCapture 0x485EE79B ⟨0x7FF580000000, 0x400000, []⟩
    (by decide) (by decide) (by decide) (Or.inr (by decide))

/-- C6: with the generated table entry
`client.dll -> Source2Client002 -> 0x1E2D410` loaded, and `client.dll`
mapped at base `0x7FF600000000` with size `0x2000000` and a matching
fingerprint, `resolve` succeeds and returns `0x7FF601E2D410`, the base plus
the offset. -/
theorem c6_scenario :
    load clientArtifact = .ok clientTable ∧
    resolve clientTable clientLocate 7 "client.dll" "Source2Client002" =
      .ok ⟨"Source2Client002", 0x7FF601E2D410, 7⟩ :=
  ⟨by decide, by decide⟩

/-- C7: `resolve` is deterministic for a fixed table snapshot and fixed
module state: two calls with the same module and interface names produce the
same observable outcome — the same address on success and the same error
kind on failure — whatever the logical timestamps of the calls. -/
theorem c7_deterministic (t : OffsetTable) (locate : String → Option LoadedModule)
    (now1 now2 : Nat) (m i : String) :
    outcome (resolve t locate now1 m i) = outcome (resolve t locate now2 m i) := by
  rcases hle : t.lookupEntry m i with _ | ⟨c, off⟩
  · simp [resolve, hle, outcome]
  · rcases hloc : locate m with _ | md
    · simp [resolve, hle, hloc, outcome]
    · rcases hv : validate md c.fingerprint with e | u
      · simp [resolve, hle, hloc, hv, outcome]
      · by_cases hb : 0 ≤ off ∧ off < (md.size : Int)
        · simp [resolve, hle, hloc, hv, hb, outcome]
        · simp [resolve, hle, hloc, hv, hb, outcome]

/-- C8: the failure checks of `resolve` run in the specified order: a key
absent from the table fails with `UnknownInterface` whatever the module
state (even if the module is unloaded or its fingerprint differs), because
the table lookup precedes module location; a present key with an unloaded
module fails with `ModuleNotLoaded`, never `StaleOffsets` or
`OffsetOutOfBounds`. -/
theorem c8_error_order (t : OffsetTable) (locate : String → Option LoadedModule)
    (now : Nat) (m i : String) :
    (t.lookupEntry m i = none →
      resolve t locate now m i = .error .UnknownInterface) ∧
    (∀ (c : ModuleCapture) (off : Int),
      t.lookupEntry m i = some (c, off) → locate m = none →
      resolve t locate now m i = .error .ModuleNotLoaded) := by
  constructor
  · intro h
    simp [resolve, h]
  · intro c off h hloc
    simp [resolve, h, hloc]

/-- Witness for C8: an unknown interface name fails `UnknownInterface`
against an unloaded module state, and a known key with the module unloaded
fails `ModuleNotLoaded`. -/
theorem c8_witness :
    resolve clientTable (fun _ => none) 0 "client.dll" "DoesNotExist" =
      .error .UnknownInterface ∧
    resolve clientTable (fun _ => none) 0 "client.dll" "Source2Client002" =
      .error .ModuleNotLoaded := by
  constructor
  · exact (c8_error_order clientTable (fun _ => none) 0 "client.dll" "DoesNotExist").1
      (by decide)
  · exact (c8_error_order clientTable (fun _ => none) 0 "client.dll" "Source2Client002").2
      clientCapture 0x1E2D410 (by decide) rfl

/-- C9: `(moduleName, interfaceName)` is a unique key across every loaded
table, and the generated artifact satisfies key uniqueness even though the
bare name `IVALIDATE001` recurs under both `steamclient64.dll` and
`vstdlib_s64.dll`, the pairs being distinct. -/
theorem c9_unique_keys (a : SourceArtifact) (t : OffsetTable)
    (h : load a = .ok t) :
    (keysOf t.modules).Nodup ∧
    (keysOf repoModules).Nodup ∧
    ("steamclient64.dll", "IVALIDATE001") ∈ keysOf repoModules ∧
    ("vstdlib_s64.dll", "IVALIDATE001") ∈ keysOf repoModules := by
  refine ⟨?_, by decide, by decide, by decide⟩
  obtain ⟨⟨hrec, hnames, hkeys⟩, hta⟩ := load_ok h
  subst hta
  exact hkeys

/-- Witness for C9: the loaded `client.dll` table has unique keys. -/
theorem c9_witness :
    (keysOf clientTable.modules).Nodup ∧
    (keysOf repoModules).Nodup ∧
    ("steamclient64.dll", "IVALIDATE001") ∈ keysOf repoModules ∧
    ("vstdlib_s64.dll", "IVALIDATE001") ∈ keysOf repoModules :=
  c9_unique_keys clientArtifact clientTable (by decide)

/-- C10: the interface name alone is not a unique key in the generated
table: `IVALIDATE001` is recorded under two different modules with two
different offsets, and the two-level lookup keyed by both names
distinguishes them. -/
theorem c10_name_not_unique :
    (⟨"steamclient64.dll", "IVALIDATE001", 0x1549E28⟩ : InterfaceRecord) ∈
      recordsOf repoTable.modules ∧
    (⟨"vstdlib_s64.dll", "IVALIDATE001", 0x6E990⟩ : InterfaceRecord) ∈
      recordsOf repoTable.modules ∧
    (0x1549E28 : Int) ≠ 0x6E990 ∧
    repoTable.lookup "steamclient64.dll" "IVALIDATE001" = some 0x1549E28 ∧
    repoTable.lookup "vstdlib_s64.dll" "IVALIDATE001" = some 0x6E990 := by
  refine ⟨by decide, by decide, by decide, by decide, by decide⟩

end Cs2Dumper
